import Mathlib

/-!
Verification of the 5R1C ISO 13790 building-physics kernel
(`5R1C_ISO_simulator/physics.py`) against its natural-language
specification.

The module is embedded shallowly over exact rational arithmetic (`ℚ`).
Python runtime failures are made explicit with `Except PyErr`:

* dividing by zero raises `ZeroDivisionError` in CPython, so division is
  `pyDiv`, which returns `PyErr.zeroDivisionError` when the divisor is `0`;
* applying a number as if it were a function (source line 60 reads
  `theta_m_prev((c_m/3600)-0.5*(h_tr_3+h_tr_em))`, with no `*` before the
  parenthesis) raises `TypeError`, modelled by `pyCall`;
* arithmetic or ordered comparison with `None` raises `TypeError`,
  modelled by `PyVal` and `pyCmpNone` (the source leaves setpoints and all
  of `procedure_1`'s R-C locals as the placeholder `None`).

The error taxonomy that the specification prescribes (`InvalidParameters`,
`InvalidPower`, `DegenerateNetwork`, `MissingSetpoint`) is included as
extra `PyErr` constructors so that statements can compare the code's actual
failures against the specified ones; no code path produces them.
-/

/-- Python runtime errors reachable in the embedded code, together with the
error kinds named by the specification (§7 taxonomy), which the code never
raises. -/
inductive PyErr where
  | typeError
  | zeroDivisionError
  | nameError
  | invalidParameters
  | invalidPower
  | degenerateNetwork
  | missingSetpoint
deriving DecidableEq, Repr

deriving instance DecidableEq for Except

/-- CPython division on numbers: raises `ZeroDivisionError` when the divisor
is zero, otherwise returns the exact quotient. -/
def pyDiv (a b : ℚ) : Except PyErr ℚ :=
  if b = 0 then Except.error PyErr.zeroDivisionError else Except.ok (a / b)

/-- CPython call `f(x)` where `f` is a number: always raises `TypeError`
(a float is not callable), whatever the argument. -/
def pyCall (f x : ℚ) : Except PyErr ℚ :=
  Except.error PyErr.typeError

/-- CPython ordered comparison between `None` and a number (`None <= x`,
`None >= x`): always raises `TypeError`. -/
def pyCmpNone (x : ℚ) : Except PyErr Bool :=
  Except.error PyErr.typeError

/-- A Python value that is either `None` or a number; used where the source
passes the placeholder `None` into arithmetic. -/
inductive PyVal where
  | none
  | num (x : ℚ)
deriving DecidableEq, Repr

/-- CPython division on possibly-`None` operands: `TypeError` if either side
is `None`, `ZeroDivisionError` on a zero divisor. -/
def pyValDiv (a b : PyVal) : Except PyErr PyVal :=
  match a, b with
  | PyVal.num x, PyVal.num y =>
      if y = 0 then Except.error PyErr.zeroDivisionError
      else Except.ok (PyVal.num (x / y))
  | _, _ => Except.error PyErr.typeError

/-- CPython addition on possibly-`None` operands: `TypeError` if either side
is `None`. -/
def pyValAdd (a b : PyVal) : Except PyErr PyVal :=
  match a, b with
  | PyVal.num x, PyVal.num y => Except.ok (PyVal.num (x + y))
  | _, _ => Except.error PyErr.typeError

/-- physics.py lines 56-62, eq. (C.4). Source line 60 reads
`theta_m_t = (theta_m_prev((c_m/3600)-0.5*(h_tr_3+h_tr_em))) + phi_m_tot / ((c_m/3600)+0.5*(h_tr_3+h_tr_em))`.
`theta_m_prev` is a number (the previous mass temperature) and is applied as
a function to the bracketed term, so CPython raises `TypeError` before the
sum is formed; the quotient and the addition are kept here for the
hypothetical continuation. -/
def calc_theta_m_t (theta_m_prev c_m h_tr_3 h_tr_em phi_m_tot : ℚ) : Except PyErr ℚ :=
  match pyCall theta_m_prev ((c_m / 3600) - 0.5 * (h_tr_3 + h_tr_em)) with
  | Except.error e => Except.error e
  | Except.ok t =>
    match pyDiv phi_m_tot ((c_m / 3600) + 0.5 * (h_tr_3 + h_tr_em)) with
    | Except.error e => Except.error e
    | Except.ok q => Except.ok (t + q)

/-- Equation (C.4) as spec.md §4.1 step 3 states it: an explicit
multiplication between `theta_m_prev` and the bracketed term, with the
`phi_m_tot` quotient added outside that product. Refinement-comparison
target for `calc_theta_m_t`. -/
def calc_theta_m_t_spec (theta_m_prev c_m h_tr_3 h_tr_em phi_m_tot : ℚ) : ℚ :=
  theta_m_prev * ((c_m / 3600) - 0.5 * (h_tr_3 + h_tr_em)) +
    phi_m_tot / ((c_m / 3600) + 0.5 * (h_tr_3 + h_tr_em))

/-- physics.py lines 65-74, eq. (C.5):
`phi_m_tot = phi_m + h_tr_em*theta_e + h_tr_3*(phi_st + h_tr_w*theta_e + h_tr_1*(((phi_ia+phi_hc_nd)/h_ve_adj)+theta_e))/h_tr_2`,
with CPython evaluation order: the inner division by `h_ve_adj` first, then
the division of the `h_tr_3*(...)` product by `h_tr_2`. -/
def calc_phi_m_tot (phi_m h_tr_em theta_e h_tr_3 phi_st h_tr_w h_tr_1 phi_ia phi_hc_nd
    h_ve_adj h_tr_2 : ℚ) : Except PyErr ℚ :=
  match pyDiv (phi_ia + phi_hc_nd) h_ve_adj with
  | Except.error e => Except.error e
  | Except.ok v =>
    match pyDiv (h_tr_3 * (phi_st + h_tr_w * theta_e + h_tr_1 * (v + theta_e))) h_tr_2 with
    | Except.error e => Except.error e
    | Except.ok w => Except.ok (phi_m + h_tr_em * theta_e + w)

/-- physics.py lines 77-83, eq. (C.6): `h_tr_1 = 1/(1/h_ve_adj + 1/h_tr_is)`.
Defined over `PyVal` because its only call site, `procedure_1` line 321,
passes the placeholder `None` for both arguments. -/
def calc_h_tr_1 (h_ve_adj h_tr_is : PyVal) : Except PyErr PyVal :=
  match pyValDiv (PyVal.num 1) h_ve_adj with
  | Except.error e => Except.error e
  | Except.ok a =>
    match pyValDiv (PyVal.num 1) h_tr_is with
    | Except.error e => Except.error e
    | Except.ok b =>
      match pyValAdd a b with
      | Except.error e => Except.error e
      | Except.ok s => pyValDiv (PyVal.num 1) s

/-- physics.py lines 86-92, eq. (C.7): `h_tr_2 = h_tr_1 + h_tr_w`. -/
def calc_h_tr_2 (h_tr_1 h_tr_w : PyVal) : Except PyErr PyVal :=
  pyValAdd h_tr_1 h_tr_w

/-- physics.py lines 95-101, eq. (C.8): `h_tr_3 = 1/(1/h_tr_2 + 1/h_tr_ms)`. -/
def calc_h_tr_3 (h_tr_2 h_tr_ms : PyVal) : Except PyErr PyVal :=
  match pyValDiv (PyVal.num 1) h_tr_2 with
  | Except.error e => Except.error e
  | Except.ok a =>
    match pyValDiv (PyVal.num 1) h_tr_ms with
    | Except.error e => Except.error e
    | Except.ok b =>
      match pyValAdd a b with
      | Except.error e => Except.error e
      | Except.ok s => pyValDiv (PyVal.num 1) s

/-- physics.py lines 104-109, eq. (C.9): `theta_m = (theta_m_t + theta_m_prev)/2`. -/
def calc_theta_m (theta_m_t theta_m_prev : ℚ) : ℚ :=
  (theta_m_t + theta_m_prev) / 2

/-- physics.py lines 112-119, eq. (C.10):
`theta_s = (h_tr_ms*theta_m + phi_st + h_tr_w*theta_e + h_tr_1*(theta_e + (phi_ia+phi_hc_nd)/h_ve_adj)) / (h_tr_ms+h_tr_w+h_tr_1)`. -/
def calc_theta_s (h_tr_ms theta_m phi_st h_tr_w theta_e h_tr_1 phi_ia phi_hc_nd
    h_ve_adj : ℚ) : Except PyErr ℚ :=
  match pyDiv (phi_ia + phi_hc_nd) h_ve_adj with
  | Except.error e => Except.error e
  | Except.ok a =>
    pyDiv (h_tr_ms * theta_m + phi_st + h_tr_w * theta_e + h_tr_1 * (theta_e + a))
      (h_tr_ms + h_tr_w + h_tr_1)

/-- physics.py lines 122-128, eq. (C.11):
`theta_air = (h_tr_is*theta_s + h_ve_adj*theta_e + phi_ia + phi_hc_nd) / (h_tr_is + h_ve_adj)`. -/
def calc_theta_air (h_tr_is theta_s h_ve_adj theta_e phi_ia phi_hc_nd : ℚ) :
    Except PyErr ℚ :=
  pyDiv (h_tr_is * theta_s + h_ve_adj * theta_e + phi_ia + phi_hc_nd)
    (h_tr_is + h_ve_adj)

/-- physics.py lines 130-135, eq. (C.12): `theta_op = 0.3*theta_air + 0.7*theta_s`. -/
def calc_theta_op (theta_air theta_s : ℚ) : ℚ :=
  0.3 * theta_air + 0.7 * theta_s

/-- The attributes of `building_thermal_prop` read by
`calc_temperatures_crank_nicholson` (physics.py lines 144-157), in source
order. The derived conductances `h_tr_1`, `h_tr_2`, `h_tr_3` are stored
fields of the snapshot, exactly as the solver consumes them. -/
structure BuildingThermalProp where
  phi_m : ℚ
  h_tr_em : ℚ
  theta_e : ℚ
  h_tr_3 : ℚ
  phi_st : ℚ
  h_tr_w : ℚ
  h_tr_1 : ℚ
  phi_ia : ℚ
  h_ve_adj : ℚ
  h_tr_2 : ℚ
  theta_m_prev : ℚ
  c_m : ℚ
  h_tr_ms : ℚ
  h_tr_is : ℚ
deriving DecidableEq, Repr

/-- physics.py lines 138-173: the RC-network solver. Computes `phi_m_tot`,
`theta_m_t`, `theta_m`, `theta_s`, `theta_air`, `theta_op` in source order
and returns the triple `(theta_m_t, theta_air, theta_op)`; any CPython
error in a step aborts the call. -/
def calc_temperatures_crank_nicholson (phi_hc_nd : ℚ) (p : BuildingThermalProp) :
    Except PyErr (ℚ × ℚ × ℚ) :=
  match calc_phi_m_tot p.phi_m p.h_tr_em p.theta_e p.h_tr_3 p.phi_st p.h_tr_w p.h_tr_1
      p.phi_ia phi_hc_nd p.h_ve_adj p.h_tr_2 with
  | Except.error e => Except.error e
  | Except.ok phi_m_tot =>
    match calc_theta_m_t p.theta_m_prev p.c_m p.h_tr_3 p.h_tr_em phi_m_tot with
    | Except.error e => Except.error e
    | Except.ok theta_m_t =>
      let theta_m := calc_theta_m theta_m_t p.theta_m_prev
      match calc_theta_s p.h_tr_ms theta_m p.phi_st p.h_tr_w p.theta_e p.h_tr_1
          p.phi_ia phi_hc_nd p.h_ve_adj with
      | Except.error e => Except.error e
      | Except.ok theta_s =>
        match calc_theta_air p.h_tr_is theta_s p.h_ve_adj p.theta_e p.phi_ia phi_hc_nd with
        | Except.error e => Except.error e
        | Except.ok theta_air =>
          Except.ok (theta_m_t, theta_air, calc_theta_op theta_air theta_s)

/-- physics.py lines 178-195. The setpoint is the placeholder
`theta_int_h_set = None` (line 181, `TODO get setpoints`); the `setpoints`
argument is received but never read. Line 189 evaluates the solver at
`phi_hc_nd = 0`; line 191 then compares `None <= theta_air`, which raises
`TypeError` whenever the solver call itself succeeds. -/
def has_heating_demand {g : Type} (p : BuildingThermalProp) (setpoints : g) :
    Except PyErr Bool :=
  match calc_temperatures_crank_nicholson 0 p with
  | Except.error e => Except.error e
  | Except.ok t => pyCmpNone t.2.1

/-- physics.py lines 198-215, the cooling analogue: `theta_int_c_set = None`
(line 201), free-float solver call (line 209), then `None >= theta_air`
(line 211), which raises `TypeError` whenever the solver call succeeds. -/
def has_cooling_demand {g : Type} (p : BuildingThermalProp) (setpoints : g) :
    Except PyErr Bool :=
  match calc_temperatures_crank_nicholson 0 p with
  | Except.error e => Except.error e
  | Except.ok t => pyCmpNone t.2.1

/-- physics.py lines 218-225, eq. (C.13):
`phi_hc_nd_un = phi_hc_nd_10*(theta_air_set - theta_air_0)/(theta_air_10 - theta_air_0)`,
an unguarded division: CPython raises `ZeroDivisionError` whenever
`theta_air_10 == theta_air_0`. -/
def calc_phi_hc_nd_un (phi_hc_nd_10 theta_air_set theta_air_0 theta_air_10 : ℚ) :
    Except PyErr ℚ :=
  pyDiv (phi_hc_nd_10 * (theta_air_set - theta_air_0)) (theta_air_10 - theta_air_0)

/-- The Step 3 / Step 4 capacity clamp of `calc_phi_hc_ac` (physics.py lines
253-270), with the capacities that lines 250-251 hardcode to `100`
(`TODO: get max cooling power` / `TODO: get max heating power`) taken as
parameters, as the specification (§4.2 step 3) and the claims treat them.
Branches in source order: the chained comparison
`phi_c_max <= phi_hc_nd_un <= phi_h_max`, then `phi_hc_nd_un > phi_h_max`,
then `phi_hc_nd_un < phi_c_max`, and the final `else` branch that prints an
error and sets the power to `0`. `calc_phi_hc_ac` below instantiates it at
the source's literal capacities `(100, 100)`. -/
def calc_phi_hc_ac_clamp (phi_c_max phi_h_max phi_hc_nd_un : ℚ) : ℚ :=
  if phi_c_max ≤ phi_hc_nd_un ∧ phi_hc_nd_un ≤ phi_h_max then phi_hc_nd_un
  else if phi_h_max < phi_hc_nd_un then phi_h_max
  else if phi_hc_nd_un < phi_c_max then phi_c_max
  else 0

/-- physics.py lines 228-281. Step 1: free-float solver call. Step 2:
hardcoded placeholders `theta_int_set = 20` and `af = 100` (lines 239-240),
probe power `phi_hc_nd_10 = 10*af = 1000`, probe solver call, then the
two-point interpolation. Step 3/4: capacity clamp with the hardcoded
`phi_c_max = phi_h_max = 100` (lines 250-251), and a final solver call at
the clamped power. Returns
`(theta_m_t_ac, theta_air_ac, theta_op_ac, phi_hc_nd_ac)`. -/
def calc_phi_hc_ac (p : BuildingThermalProp) : Except PyErr (ℚ × ℚ × ℚ × ℚ) :=
  match calc_temperatures_crank_nicholson 0 p with
  | Except.error e => Except.error e
  | Except.ok temp_rc_0 =>
    let theta_air_0 := temp_rc_0.2.1
    let theta_air_set : ℚ := 20
    let phi_hc_nd_10 : ℚ := 10 * 100
    match calc_temperatures_crank_nicholson phi_hc_nd_10 p with
    | Except.error e => Except.error e
    | Except.ok temp_rc_10 =>
      let theta_air_10 := temp_rc_10.2.1
      match calc_phi_hc_nd_un phi_hc_nd_10 theta_air_set theta_air_0 theta_air_10 with
      | Except.error e => Except.error e
      | Except.ok phi_hc_nd_un =>
        let phi_hc_nd_ac := calc_phi_hc_ac_clamp 100 100 phi_hc_nd_un
        match calc_temperatures_crank_nicholson phi_hc_nd_ac p with
        | Except.error e => Except.error e
        | Except.ok temp_ac =>
          Except.ok (temp_ac.1, temp_ac.2.1, temp_ac.2.2, phi_hc_nd_ac)

/-- physics.py lines 287-444, paired with the number of attempted solver
evaluations (calls to `calc_temperatures_crank_nicholson`, directly or
inside a demand check). Lines 291-319 set every R-C model local to the
placeholder `None`; line 321 therefore computes `calc_h_tr_1(None, None)`,
and `1/None` raises `TypeError` before the demand check, so the count on
the realized path is `0`. The continuation is kept faithful to the source
control flow: the `if not has_heating_demand(..) and not has_cooling_demand(..)`
condition with CPython short-circuiting (line 327), the no-demand branch
ending in a bare `return` (line 345, the function yields `None`), the
re-evaluation of the demand checks in the `elif` arms (lines 347, 394), and
the references to the unimported module name `control` (lines 352, 399),
which would raise `NameError`. -/
def procedure_1 {a b g : Type} (hoy : a) (bpr : b) (p : BuildingThermalProp)
    (setpoints : g) : Except PyErr Unit × Nat :=
  match calc_h_tr_1 PyVal.none PyVal.none with
  | Except.error e => (Except.error e, 0)
  | Except.ok h1 =>
    match calc_h_tr_2 h1 PyVal.none with
    | Except.error e => (Except.error e, 0)
    | Except.ok h2 =>
      match calc_h_tr_3 h2 PyVal.none with
      | Except.error e => (Except.error e, 0)
      | Except.ok _ =>
        match has_heating_demand p setpoints with
        | Except.error e => (Except.error e, 1)
        | Except.ok true =>
          match has_heating_demand p setpoints with
          | Except.error e => (Except.error e, 2)
          | Except.ok true => (Except.error PyErr.nameError, 2)
          | Except.ok false =>
            match has_cooling_demand p setpoints with
            | Except.error e => (Except.error e, 3)
            | Except.ok true => (Except.error PyErr.nameError, 3)
            | Except.ok false => (Except.ok (), 3)
        | Except.ok false =>
          match has_cooling_demand p setpoints with
          | Except.error e => (Except.error e, 2)
          | Except.ok false =>
            match calc_temperatures_crank_nicholson 0 p with
            | Except.error e => (Except.error e, 3)
            | Except.ok _ => (Except.ok (), 3)
          | Except.ok true =>
            match has_heating_demand p setpoints with
            | Except.error e => (Except.error e, 3)
            | Except.ok true => (Except.error PyErr.nameError, 3)
            | Except.ok false =>
              match has_cooling_demand p setpoints with
              | Except.error e => (Except.error e, 4)
              | Except.ok true => (Except.error PyErr.nameError, 4)
              | Except.ok false => (Except.ok (), 4)

/-- The concrete scenario of spec.md §8: `theta_m_prev=20, theta_e=5,
c_m=18000000, h_tr_em=20, h_tr_w=10, h_ve_adj=15, h_tr_ms=25, h_tr_is=30,
phi_m=phi_st=phi_ia=0`, with the derived conductances `h_tr_1 = 10`,
`h_tr_2 = 20`, `h_tr_3 = 100/9` stored in the snapshot. Field order:
phi_m, h_tr_em, theta_e, h_tr_3, phi_st, h_tr_w, h_tr_1, phi_ia, h_ve_adj,
h_tr_2, theta_m_prev, c_m, h_tr_ms, h_tr_is. -/
def pScenario : BuildingThermalProp :=
  BuildingThermalProp.mk 0 20 5 (100 / 9) 0 10 10 0 15 20 20 18000000 25 30

/-- Scenario variant for the demand-check evaluation: `theta_e = 8`. -/
def pEx2 : BuildingThermalProp :=
  BuildingThermalProp.mk 0 20 8 (100 / 9) 0 10 10 0 15 20 20 18000000 25 30

/-- Scenario variant for the setpoint-achievement evaluation: `phi_ia = 100`. -/
def pEx3 : BuildingThermalProp :=
  BuildingThermalProp.mk 0 20 5 (100 / 9) 0 10 10 100 15 20 20 18000000 25 30

/-- Scenario variant for the capacity-clamp evaluation: `phi_st = 50`. -/
def pEx4 : BuildingThermalProp :=
  BuildingThermalProp.mk 0 20 5 (100 / 9) 50 10 10 0 15 20 20 18000000 25 30

/-- Scenario variant for the evaluation-count check: `theta_e = 0`. -/
def pEx8 : BuildingThermalProp :=
  BuildingThermalProp.mk 0 20 0 (100 / 9) 0 10 10 0 15 20 20 18000000 25 30

/-- Scenario variant for the configuration-error check: `theta_m_prev = 25`. -/
def pEx9 : BuildingThermalProp :=
  BuildingThermalProp.mk 0 20 5 (100 / 9) 0 10 10 0 15 20 25 18000000 25 30

/-- A parameter snapshot violating the positivity invariant:
`h_tr_em = -20`, every other value as in the scenario. -/
def pBad7 : BuildingThermalProp :=
  BuildingThermalProp.mk 0 (-20) 5 (100 / 9) 0 10 10 0 15 20 20 18000000 25 30

/-- Scenario variant for the validation witness: `h_tr_w = 12`, `h_tr_2 = 22`. -/
def pW7 : BuildingThermalProp :=
  BuildingThermalProp.mk 0 20 5 (100 / 9) 0 12 10 0 15 22 20 18000000 25 30

/-- Helper: a solver call never succeeds; it fails with `TypeError` (the
line-60 application of `theta_m_prev`) once `phi_m_tot` is computable, and
with `ZeroDivisionError` when a divisor in eq. (C.5) is zero. -/
theorem solver_error_cases (phi_hc_nd : ℚ) (p : BuildingThermalProp) :
    calc_temperatures_crank_nicholson phi_hc_nd p = Except.error PyErr.typeError ∨
    calc_temperatures_crank_nicholson phi_hc_nd p = Except.error PyErr.zeroDivisionError := by
  by_cases h1 : p.h_ve_adj = 0
  · right
    unfold calc_temperatures_crank_nicholson calc_phi_m_tot pyDiv
    simp [h1]
  · by_cases h2 : p.h_tr_2 = 0
    · right
      unfold calc_temperatures_crank_nicholson calc_phi_m_tot pyDiv
      simp [h1, h2]
    · left
      unfold calc_temperatures_crank_nicholson calc_phi_m_tot calc_theta_m_t pyCall pyDiv
      simp [h1, h2]

/-- C1: source line 60 applies `theta_m_prev` to the bracketed term instead
of multiplying by it, so `calc_theta_m_t` raises `TypeError` at the claim's
concrete input, while the update equation with the explicit multiplication
(spec.md §4.1 step 3, the code's own cited eq. C.4) yields the finite value
`40003750/401 = 99750 + 4000/401`. -/
theorem c1_theta_m_t_applies_not_multiplies :
    calc_theta_m_t 20 18000000 5 20 50000 = Except.error PyErr.typeError ∧
    calc_theta_m_t_spec 20 18000000 5 20 50000 = 40003750 / 401 := by
  constructor
  · rfl
  · unfold calc_theta_m_t_spec
    norm_num

/-- C2: the demand check underlying the no-demand case never produces a
verdict: `has_heating_demand` raises `TypeError` at a parameter set whose
free-floating air temperature the claim would place between the setpoints
(the free-float solver call hits the line-60 call bug; even past it, the
setpoint is the placeholder `None` and `None <= theta_air` raises). The
resolver therefore cannot return `phi_hc_nd = 0` with the free-float
result. -/
theorem c2_demand_check_crashes :
    has_heating_demand pEx2 () = Except.error PyErr.typeError := by
  rfl

/-- C3: at a parameter set with heating demand in range, `calc_phi_hc_ac`
raises `TypeError` in its very first solver evaluation (the line-60 call
bug), so it never computes `phi_hc_nd_un`, never re-derives temperatures,
and never achieves any setpoint; moreover its setpoint is the hardcoded
placeholder `theta_int_set = 20`, not a caller-supplied one. -/
theorem c3_setpoint_achievement_crashes :
    calc_phi_hc_ac pEx3 = Except.error PyErr.typeError := by
  rfl

/-- C4 counterexample: at a concrete parameter set the resolver delivers no
clamped power at all — `calc_phi_hc_ac` raises `TypeError` before reaching
the capacity clamp (and its capacities are hardcoded to
`phi_c_max = phi_h_max = 100`, so the claim's precondition
`phi_c_max ≤ 0` is never satisfied by the code as written). -/
theorem c4_resolver_crashes_cex :
    calc_phi_hc_ac pEx4 = Except.error PyErr.typeError := by
  rfl

/-- C4 (amended): the clamp branch structure of `calc_phi_hc_ac`
(physics.py lines 253-270), with capacities satisfying the convention
`phi_c_max ≤ 0 ≤ phi_h_max`, delivers exactly `phi_h_max` when the
unrestricted power exceeds `phi_h_max` and exactly `phi_c_max` when it
falls below `phi_c_max`; the final `else` branch is unreachable under the
convention. -/
theorem c4_clamp_branches (phi_c_max phi_h_max phi_hc_nd_un : ℚ)
    (hc : phi_c_max ≤ 0) (hh : 0 ≤ phi_h_max) :
    (phi_h_max < phi_hc_nd_un →
      calc_phi_hc_ac_clamp phi_c_max phi_h_max phi_hc_nd_un = phi_h_max) ∧
    (phi_hc_nd_un < phi_c_max →
      calc_phi_hc_ac_clamp phi_c_max phi_h_max phi_hc_nd_un = phi_c_max) := by
  constructor
  · intro hx
    have hnot : ¬(phi_c_max ≤ phi_hc_nd_un ∧ phi_hc_nd_un ≤ phi_h_max) := by
      rintro ⟨-, hle⟩
      linarith
    unfold calc_phi_hc_ac_clamp
    rw [if_neg hnot, if_pos hx]
  · intro hx
    have hnot1 : ¬(phi_c_max ≤ phi_hc_nd_un ∧ phi_hc_nd_un ≤ phi_h_max) := by
      rintro ⟨hge, -⟩
      linarith
    have hnot2 : ¬(phi_h_max < phi_hc_nd_un) := by linarith
    unfold calc_phi_hc_ac_clamp
    rw [if_neg hnot1, if_neg hnot2, if_pos hx]

/-- C4 witness: with `phi_c_max = -50`, `phi_h_max = 80`, an unrestricted
power of `200` is clamped to `80` and one of `-200` is clamped to `-50`. -/
theorem c4_clamp_branches_witness :
    calc_phi_hc_ac_clamp (-50) 80 200 = 80 ∧
    calc_phi_hc_ac_clamp (-50) 80 (-200) = -50 :=
  ⟨(c4_clamp_branches (-50) 80 200 (by norm_num) (by norm_num)).1 (by norm_num),
   (c4_clamp_branches (-50) 80 (-200) (by norm_num) (by norm_num)).2 (by norm_num)⟩

/-- C5: the solver returns no air temperature at all: at the spec's own
concrete scenario it raises `TypeError` (the line-60 call bug) at each of
three distinct probe powers, so no slope of `theta_air` over `phi_hc_nd`
exists to compare. -/
theorem c5_solver_returns_no_theta_air :
    calc_temperatures_crank_nicholson 0 pScenario = Except.error PyErr.typeError ∧
    calc_temperatures_crank_nicholson 500 pScenario = Except.error PyErr.typeError ∧
    calc_temperatures_crank_nicholson 1000 pScenario = Except.error PyErr.typeError := by
  exact ⟨rfl, rfl, rfl⟩

/-- C6 counterexample: with coinciding probe and free-float air
temperatures (`theta_air_10 = theta_air_0 = 15`), the interpolation
performs the division anyway and raises `ZeroDivisionError` — not any
`DegenerateNetwork` configuration error (no such error exists in the
code). -/
theorem c6_zero_division_cex :
    calc_phi_hc_nd_un 1000 20 15 15 = Except.error PyErr.zeroDivisionError := by
  unfold calc_phi_hc_nd_un pyDiv
  norm_num

/-- C6 (amended): whenever the probe air temperature equals the free-float
air temperature, `calc_phi_hc_nd_un` raises `ZeroDivisionError` from its
unguarded division, for every probe power and setpoint. -/
theorem c6_unguarded_interp_division (phi_hc_nd_10 theta_air_set theta_air_0 theta_air_10 : ℚ)
    (h : theta_air_10 = theta_air_0) :
    calc_phi_hc_nd_un phi_hc_nd_10 theta_air_set theta_air_0 theta_air_10 =
      Except.error PyErr.zeroDivisionError := by
  unfold calc_phi_hc_nd_un pyDiv
  rw [h, sub_self]
  simp

/-- C6 witness: a concrete degenerate probe (`theta_air_10 = theta_air_0 = 18`)
raises `ZeroDivisionError`. -/
theorem c6_unguarded_interp_division_witness :
    calc_phi_hc_nd_un 500 21 18 18 = Except.error PyErr.zeroDivisionError :=
  c6_unguarded_interp_division 500 21 18 18 rfl

/-- C7 counterexample: no validation precedes solving. `calc_h_tr_1`
accepts the non-physical conductance `h_ve_adj = -15` and returns `-30`
without any error, and at a parameter set with the non-physical
`h_tr_em = -20` the solver fails with `TypeError` (the line-60 call bug,
raised equally for perfectly valid parameters) rather than with any
`InvalidParameters` rejection. -/
theorem c7_no_validation_cex :
    calc_h_tr_1 (PyVal.num (-15)) (PyVal.num 30) = Except.ok (PyVal.num (-30)) ∧
    calc_temperatures_crank_nicholson 0 pBad7 = Except.error PyErr.typeError := by
  constructor
  · norm_num [calc_h_tr_1, pyValDiv, pyValAdd]
  · rfl

/-- C7 (amended): the solver performs no parameter or power validation and
no `InvalidParameters` or `InvalidPower` error exists; for every parameter
set whose divisors `h_ve_adj` and `h_tr_2` are nonzero — valid or not —
and every power, it fails with the unrelated `TypeError` of the line-60
call bug. -/
theorem c7_solver_no_validation (phi_hc_nd : ℚ) (p : BuildingThermalProp)
    (h1 : p.h_ve_adj ≠ 0) (h2 : p.h_tr_2 ≠ 0) :
    calc_temperatures_crank_nicholson phi_hc_nd p = Except.error PyErr.typeError := by
  unfold calc_temperatures_crank_nicholson calc_phi_m_tot calc_theta_m_t pyCall pyDiv
  simp [h1, h2]

/-- C7 witness: the solver raises `TypeError` at power `7` on a concrete
(physically valid) parameter set. -/
theorem c7_solver_no_validation_witness :
    calc_temperatures_crank_nicholson 7 pW7 = Except.error PyErr.typeError :=
  c7_solver_no_validation 7 pW7 (by decide) (by decide)

/-- C8 counterexample: at a concrete input, `procedure_1` performs `0`
solver evaluations — not `1` and not `3` — because it raises `TypeError`
computing `calc_h_tr_1(None, None)` before the demand check. -/
theorem c8_procedure_crash_cex :
    procedure_1 () () pEx8 () = (Except.error PyErr.typeError, 0) := by
  rfl

/-- C8 (amended): on every input, `procedure_1` raises `TypeError` while
computing the derived conductances from its `None` placeholders, before
any demand check, and the RC-network solver is evaluated exactly `0`
times. -/
theorem c8_procedure_zero_solver_evals {a b g : Type} (hoy : a) (bpr : b)
    (p : BuildingThermalProp) (setpoints : g) :
    procedure_1 hoy bpr p setpoints = (Except.error PyErr.typeError, 0) := by
  rfl

/-- C9 counterexample: with its setpoint absent (the code's own permanent
state: `theta_int_c_set = None`), the demand check fails with `TypeError`,
not with any `MissingSetpoint` configuration error. -/
theorem c9_missing_setpoint_cex :
    has_cooling_demand pEx9 () = Except.error PyErr.typeError := by
  rfl

/-- C9 (amended): for every parameter set and every caller-supplied
setpoint object, `has_cooling_demand` fails with `TypeError` or
`ZeroDivisionError`; in particular it never surfaces a `MissingSetpoint`
configuration error and never reads the caller's setpoints (the result
does not depend on them). -/
theorem c9_no_config_error_machinery {g : Type} (p : BuildingThermalProp)
    (setpoints : g) :
    ∃ e, has_cooling_demand p setpoints = Except.error e ∧
      (e = PyErr.typeError ∨ e = PyErr.zeroDivisionError) := by
  rcases solver_error_cases 0 p with h | h
  · exact ⟨PyErr.typeError, by unfold has_cooling_demand; rw [h], Or.inl rfl⟩
  · exact ⟨PyErr.zeroDivisionError, by unfold has_cooling_demand; rw [h], Or.inr rfl⟩

/-- C10: `calc_theta_op` is the convex combination
`0.3*theta_air + 0.7*theta_s`, and therefore always lies between the
minimum and the maximum of its two inputs. -/
theorem c10_theta_op_convex (theta_air theta_s : ℚ) :
    calc_theta_op theta_air theta_s = 0.3 * theta_air + 0.7 * theta_s ∧
    min theta_air theta_s ≤ calc_theta_op theta_air theta_s ∧
    calc_theta_op theta_air theta_s ≤ max theta_air theta_s := by
  refine ⟨rfl, ?_, ?_⟩
  · rcases le_total theta_air theta_s with h | h
    · rw [min_eq_left h]
      unfold calc_theta_op
      norm_num
      linarith
    · rw [min_eq_right h]
      unfold calc_theta_op
      norm_num
      linarith
  · rcases le_total theta_air theta_s with h | h
    · rw [max_eq_right h]
      unfold calc_theta_op
      norm_num
      linarith
    · rw [max_eq_left h]
      unfold calc_theta_op
      norm_num
      linarith
